import Mathlib

/-!
Shallow embedding of the wacp-server-netlify license backend.

The repository ships three near-duplicate express apps:
the primary Netlify handler (netlify/functions/api.js, first document),
netlify/functions/app.js, and an older "server.js" variant embedded as the
second document of api.js.  This file embeds the /license, /capture-order
and /verify endpoints of those variants together with the createLicense
store adapter, JS truthiness on request fields, the two license-key
generators and the shape of the payment-provider capture response.

External nondeterminism (database connectivity and insert outcome, token
and capture fetch results, email-provider behaviour, the random source,
the clock) is collected in an Env value; each handler is a pure function
from request and Env to the HTTP response plus a trace of the external
calls it made.
-/

namespace Wacp

/-- JSON values as the express handlers see them (numbers restricted to
the integers appearing in the claims; nul is JSON null).  A JS undefined
field is represented by Option.none at its use sites, never by a JVal. -/
inductive JVal where
  | str (s : String)
  | num (n : Int)
  | bool (b : Bool)
  | nul
  | obj (fields : List (String × JVal))
  | arr (elems : List JVal)

/-- JS truthiness test behind the `!x` validation checks of the handlers:
undefined, null, the empty string, 0 and false are falsy, every other
JSON value is truthy. -/
def jsFalsy : Option JVal → Bool
  | none => true
  | some (.str s) => s == ""
  | some (.num n) => n == 0
  | some (.bool b) => b == false
  | some .nul => true
  | some (.obj _) => false
  | some (.arr _) => false

/-- Characters in positions [a, b) of a string: the common value of JS
`slice(a, b)` and `substring(a, b)` for the nonnegative arguments used by
the key generators. -/
def jsSub (s : String) (a b : Nat) : String :=
  String.mk ((s.toList.drop a).take (b - a))

/-- JS `toUpperCase()` on the ASCII strings this system manipulates:
uppercase every character. -/
def jsToUpper (s : String) : String := String.mk (s.toList.map Char.toUpper)

/-- One key group of the api.js generator,
`Math.random().toString(36).slice(2, 7).toUpperCase()`, where r is the
`toString(36)` rendering (such as "0.k2j3h4j5w1") supplied by the random
source: characters 2 to 6 of it, uppercased. -/
def genGroupApi (r : String) : String := jsToUpper (jsSub r 2 7)

/-- The api.js license-key generator,
`"PRO-" + [...Array(4)].map(() => Math.random().toString(36).slice(2, 7).toUpperCase()).join("-")`;
`rand i` is the i-th `Math.random().toString(36)` result of the request. -/
def genKeyApi (rand : Nat → String) : String :=
  "PRO-" ++ String.intercalate "-" ((List.range 4).map fun i => genGroupApi (rand i))

/-- The app.js / server.js license-key generator,
`` `WAPRO-${domain.substring(0,4).toUpperCase()}-${Math.random().toString(36).substring(2,8).toUpperCase()}-${new Date().getFullYear()}` ``. -/
def genKeyApp (domain : String) (rand : Nat → String) (year : Nat) : String :=
  "WAPRO-" ++ jsToUpper (jsSub domain 0 4) ++ "-" ++ jsToUpper (jsSub (rand 0) 2 8) ++
    "-" ++ toString year

/-- One element of a `captures` array; `id = none` models a capture
object without an id property (reading it yields undefined and does not
throw). -/
structure CaptureInfo where
  id : Option String

/-- The `payments` object of a purchase unit. -/
structure PaymentsObj where
  captures : List CaptureInfo

/-- One element of `purchase_units`; `payments = none` models an element
without a payments property. -/
structure PurchaseUnit where
  payments : Option PaymentsObj

/-- The capture response of the payment provider as the handlers read it:
`status`, the top-level `id` (used by the server.js variant) and
`purchase_units`.  A missing array and an empty array behave identically
at the dereference, so both are the empty list. -/
structure CaptureResp where
  status : Option String
  id : Option String
  purchase_units : List PurchaseUnit

/-- The dereference `capturedData.purchase_units[0].payments.captures[0].id`
of the api.js and app.js handlers: it throws a TypeError (modelled as
`.error ()`) when `purchase_units[0]`, `payments` or `captures[0]` is
undefined, and otherwise yields the value of `id`, which is undefined
(`none`) when that final property is absent. -/
def extractTxnId (c : CaptureResp) : Except Unit (Option String) :=
  match c.purchase_units with
  | [] => .error ()
  | u :: _ =>
    match u.payments with
    | none => .error ()
    | some p =>
      match p.captures with
      | [] => .error ()
      | cap :: _ => .ok cap.id

/-- JSON rendering of a capture element, as serialized into the 400
response field `details` (undefined properties are dropped by
JSON.stringify). -/
def captureInfoJson (c : CaptureInfo) : JVal :=
  .obj (match c.id with | some i => [("id", JVal.str i)] | none => [])

/-- JSON rendering of a payments object. -/
def paymentsJson (p : PaymentsObj) : JVal :=
  .obj [("captures", .arr (p.captures.map captureInfoJson))]

/-- JSON rendering of a purchase unit. -/
def purchaseUnitJson (u : PurchaseUnit) : JVal :=
  .obj (match u.payments with | some p => [("payments", paymentsJson p)] | none => [])

/-- JSON rendering of the whole capture response, attached raw as
`details: capturedData` by the not-completed branch. -/
def captureRespJson (c : CaptureResp) : JVal :=
  .obj ((match c.status with | some s => [("status", JVal.str s)] | none => []) ++
        (match c.id with | some i => [("id", JVal.str i)] | none => []) ++
        [("purchase_units", .arr (c.purchase_units.map purchaseUnitJson))])

/-- The license document a handler passes to the store adapter: each
field is the JS value it supplies, none meaning the property is absent
(the /license flow never sets transactionId; the capture flows always set
the other four). -/
structure LicenseData where
  license : Option JVal
  domain : Option JVal
  email : Option JVal
  amount : Option JVal
  transactionId : Option JVal

/-- A document as persisted in the `licenses` collection: the data plus
the `createdAt: new Date().toISOString()` timestamp that createLicense
attaches at insert time. -/
structure StoredLicense where
  data : LicenseData
  createdAt : String

/-- Which of the two notification emails a send attempt is. -/
inductive EmailKind where
  | customer
  | admin
deriving DecidableEq

/-- The ambient environment of one request: the observable behaviour of
the database, the payment provider, the email provider, the random
source and the clock during that request. -/
structure Env where
  dbConnected : Bool
  store : List StoredLicense
  insertOutcome : Except String String
  credsPresent : Bool
  tokenFetchOk : Bool
  capture : CaptureResp
  resendConfigured : Bool
  customerEmailOk : Bool
  adminEmailOk : Bool
  rand : Nat → String
  year : Nat
  nowIso : String

/-- Externally observable effects of handling one request: how many token
and capture fetches were issued, which documents the store was asked to
add, which of those were actually persisted, and which email sends were
attempted. -/
structure Trace where
  tokenCalls : Nat
  captureCalls : Nat
  insertAttempts : List LicenseData
  persisted : List StoredLicense
  emailAttempts : List EmailKind

/-- The trace of a request that made no external call. -/
def Trace.empty : Trace := ⟨0, 0, [], [], []⟩

/-- An HTTP response: status code and the JSON body as the client
receives it (object fields whose JS value is undefined are dropped, as
res.json serialization does). -/
structure Response where
  status : Nat
  body : List (String × JVal)

/-- The createLicense store adapter of api.js and app.js: it refuses with
a failure result when no database connection exists (attempting nothing),
and otherwise attempts the `licenses` add with the data plus a createdAt
timestamp, returning the new document id on success and the error message
on a write failure. -/
def createLicense (d : LicenseData) (e : Env) :
    Except String String × List LicenseData × List StoredLicense :=
  if e.dbConnected then
    match e.insertOutcome with
    | .ok docId => (.ok docId, [d], [⟨d, e.nowIso⟩])
    | .error msg => (.error msg, [d], [])
  else (.error "Database connection not established.", [], [])

/-- Request body of POST /license; none is an absent property. -/
structure LicenseReq where
  license : Option JVal
  domain : Option JVal
  email : Option JVal
  amount : Option JVal

/-- POST /license of api.js (the app.js handler is textually identical):
the checkDbConnection middleware answers 503 without a database; then
`if (!license || !domain || !email || amount === undefined)` answers 400;
otherwise createLicense decides between 201 with the new id and 500 with
the error. -/
def licensePost (req : LicenseReq) (e : Env) : Response × Trace :=
  if e.dbConnected then
    if jsFalsy req.license || jsFalsy req.domain || jsFalsy req.email
        || req.amount.isNone then
      (⟨400, [("message", .str "Invalid input. All fields are required.")]⟩, Trace.empty)
    else
      let res := createLicense ⟨req.license, req.domain, req.email, req.amount, none⟩ e
      match res.1 with
      | .ok docId =>
        (⟨201, [("message", .str "License created successfully"), ("id", .str docId)]⟩,
         { Trace.empty with insertAttempts := res.2.1, persisted := res.2.2 })
      | .error msg =>
        (⟨500, [("message", .str "Error creating license."), ("error", .str msg)]⟩,
         { Trace.empty with insertAttempts := res.2.1, persisted := res.2.2 })
  else
    (⟨503, [("message", .str "Service Unavailable: Database not connected.")]⟩, Trace.empty)

/-- Request body of POST /capture-order; none is an absent property (the
fields are taken as strings, the shape every client of this API sends). -/
structure CaptureReq where
  orderID : Option String
  domain : Option String
  email : Option String

/-- The email block shared by the api.js and app.js capture handlers:
guarded by `if (resend)`, then a single try block that awaits the
customer send and then the admin send.  A customer-send failure jumps to
the catch, so the admin send is attempted only when the customer send
succeeded; no failure escapes the block. -/
def captureEmails (e : Env) : List EmailKind :=
  if e.resendConfigured then
    if e.customerEmailOk then [.customer, .admin] else [.customer]
  else []

/-- POST /capture-order of netlify/functions/api.js (primary handler):
checkDbConnection, presence validation of orderID, domain and email,
generateAccessToken (which throws before any fetch when the PayPal
credentials are missing and after the token fetch when the provider
rejects it), the capture fetch, then the status branch.  On COMPLETED it
generates the PRO key, dereferences the capture id path, calls
createLicense (a failure only logs), runs the email block and answers 200
with licenseKey and transactionId; otherwise it answers 400 with the raw
response as details.  Any throw is caught into a 500. -/
def captureOrderApi (req : CaptureReq) (e : Env) : Response × Trace :=
  if e.dbConnected then
    match req.orderID, req.domain, req.email with
    | some o, some d, some em =>
      if o = "" ∨ d = "" ∨ em = "" then
        (⟨400, [("error", .str "Missing required fields: orderID, domain, and email.")]⟩,
         Trace.empty)
      else if e.credsPresent then
        if e.tokenFetchOk then
          if e.capture.status = some "COMPLETED" then
            let key := genKeyApi e.rand
            match extractTxnId e.capture with
            | .error _ =>
              (⟨500, [("error", .str "Failed to capture order.")]⟩,
               { Trace.empty with tokenCalls := 1, captureCalls := 1 })
            | .ok txn =>
              let record : LicenseData :=
                ⟨some (.str key), some (.str d), some (.str em), some (.num 49),
                 txn.map .str⟩
              let res := createLicense record e
              (⟨200, [("licenseKey", .str key)] ++
                  (match txn with | some t => [("transactionId", JVal.str t)] | none => [])⟩,
               ⟨1, 1, res.2.1, res.2.2, captureEmails e⟩)
          else
            (⟨400, [("error", .str "Payment not completed."),
                    ("details", captureRespJson e.capture)]⟩,
             { Trace.empty with tokenCalls := 1, captureCalls := 1 })
        else
          (⟨500, [("error", .str "Failed to capture order.")]⟩,
           { Trace.empty with tokenCalls := 1 })
      else
        (⟨500, [("error", .str "Failed to capture order.")]⟩, Trace.empty)
    | _, _, _ =>
      (⟨400, [("error", .str "Missing required fields: orderID, domain, and email.")]⟩,
       Trace.empty)
  else
    (⟨503, [("message", .str "Service Unavailable: Database not connected.")]⟩, Trace.empty)

/-- POST /capture-order of netlify/functions/app.js: identical to the
primary api.js handler except that the license key is the WAPRO one
derived from the domain, the random source and the current year. -/
def captureOrderApp (req : CaptureReq) (e : Env) : Response × Trace :=
  if e.dbConnected then
    match req.orderID, req.domain, req.email with
    | some o, some d, some em =>
      if o = "" ∨ d = "" ∨ em = "" then
        (⟨400, [("error", .str "Missing required fields: orderID, domain, and email.")]⟩,
         Trace.empty)
      else if e.credsPresent then
        if e.tokenFetchOk then
          if e.capture.status = some "COMPLETED" then
            let key := genKeyApp d e.rand e.year
            match extractTxnId e.capture with
            | .error _ =>
              (⟨500, [("error", .str "Failed to capture order.")]⟩,
               { Trace.empty with tokenCalls := 1, captureCalls := 1 })
            | .ok txn =>
              let record : LicenseData :=
                ⟨some (.str key), some (.str d), some (.str em), some (.num 49),
                 txn.map .str⟩
              let res := createLicense record e
              (⟨200, [("licenseKey", .str key)] ++
                  (match txn with | some t => [("transactionId", JVal.str t)] | none => [])⟩,
               ⟨1, 1, res.2.1, res.2.2, captureEmails e⟩)
          else
            (⟨400, [("error", .str "Payment not completed."),
                    ("details", captureRespJson e.capture)]⟩,
             { Trace.empty with tokenCalls := 1, captureCalls := 1 })
        else
          (⟨500, [("error", .str "Failed to capture order.")]⟩,
           { Trace.empty with tokenCalls := 1 })
      else
        (⟨500, [("error", .str "Failed to capture order.")]⟩, Trace.empty)
    | _, _, _ =>
      (⟨400, [("error", .str "Missing required fields: orderID, domain, and email.")]⟩,
       Trace.empty)
  else
    (⟨503, [("message", .str "Service Unavailable: Database not connected.")]⟩, Trace.empty)

/-- The email block of the server.js variant: no `if (resend)` guard (the
client is constructed unconditionally), otherwise the same single try
block, customer send first. -/
def srvEmails (e : Env) : List EmailKind :=
  if e.customerEmailOk then [.customer, .admin] else [.customer]

/-- POST /capture-order of the second (server.js) variant embedded in
api.js: no checkDbConnection middleware and no field validation; its
generateAccessToken catches its own errors and returns undefined instead
of throwing, so the token and capture fetches always happen.  On
COMPLETED it derives the WAPRO key from `domain.substring(0, 4)` — a
throw when domain is undefined, caught into a 500 — reads the top-level
`capturedData.id` as transaction id, inserts, runs the email block and
answers 200 with only the licenseKey; otherwise 400 without details. -/
def captureOrderSrv (req : CaptureReq) (e : Env) : Response × Trace :=
  if e.capture.status = some "COMPLETED" then
    match req.domain with
    | none =>
      (⟨500, [("error", .str "Failed to capture order.")]⟩,
       { Trace.empty with tokenCalls := 1, captureCalls := 1 })
    | some d =>
      let key := genKeyApp d e.rand e.year
      let record : LicenseData :=
        ⟨some (.str key), some (.str d), req.email.map .str, some (.num 49),
         e.capture.id.map .str⟩
      let res := createLicense record e
      (⟨200, [("licenseKey", .str key)]⟩,
       ⟨1, 1, res.2.1, res.2.2, srvEmails e⟩)
  else
    (⟨400, [("error", .str "Payment not completed.")]⟩,
     { Trace.empty with tokenCalls := 1, captureCalls := 1 })

/-- The Firestore equality filter `where(field, "==", k)` for a string k
against a document field: absent and non-string field values match no
string. -/
def fieldEqStr : Option JVal → String → Bool
  | some (.str s), t => s == t
  | _, _ => false

/-- One field of a JSON response object, dropped when the JS value is
undefined, as res.json serialization does. -/
def optField (name : String) : Option JVal → List (String × JVal)
  | some v => [(name, v)]
  | none => []

/-- GET /verify of api.js: requires both query parameters key and domain
(JS-truthy), queries for at most one document matching both equality
filters, answers 404 with verified false on no match, and otherwise 200
with only license, domain and verified true rebuilt from the stored
document. -/
def verifyApi (key domain : Option String) (e : Env) : Response :=
  if e.dbConnected then
    match key, domain with
    | some k, some d =>
      if k = "" ∨ d = "" then
        ⟨400, [("message", .str "Key and domain are required for verification.")]⟩
      else
        match e.store.find?
            (fun r => fieldEqStr r.data.license k && fieldEqStr r.data.domain d) with
        | none =>
          ⟨404, [("verified", .bool false), ("message", .str "Invalid license key or domain.")]⟩
        | some r =>
          ⟨200, optField "license" r.data.license ++ optField "domain" r.data.domain ++
               [("verified", .bool true)]⟩
    | _, _ => ⟨400, [("message", .str "Key and domain are required for verification.")]⟩
  else ⟨503, [("message", .str "Service Unavailable: Database not connected.")]⟩

/-- GET /verify of app.js: requires only the domain query parameter,
queries for at most one document matching it, answers 404 with a message
(and no verified field) on no match, and otherwise 200 with only license,
domain and verified true. -/
def verifyApp (domain : Option String) (e : Env) : Response :=
  if e.dbConnected then
    match domain with
    | some d =>
      if d = "" then
        ⟨400, [("message", .str "Domain is required for verification.")]⟩
      else
        match e.store.find? (fun r => fieldEqStr r.data.domain d) with
        | none =>
          ⟨404, [("message", .str "No license found for the specified domain.")]⟩
        | some r =>
          ⟨200, optField "license" r.data.license ++ optField "domain" r.data.domain ++
               [("verified", .bool true)]⟩
    | none => ⟨400, [("message", .str "Domain is required for verification.")]⟩
  else ⟨503, [("message", .str "Service Unavailable: Database not connected.")]⟩

/-- Uppercase alphanumeric character, A to Z or 0 to 9. -/
def isUpperAlnum (c : Char) : Bool := c.isUpper || c.isDigit

/-- The license-key format asserted by the spec scenario, parameterized
by the group width n: the literal "PRO-" followed by four
hyphen-separated groups of exactly n uppercase alphanumeric characters. -/
def keyFormat (n : Nat) (s : String) : Prop :=
  ∃ g1 g2 g3 g4 : String,
    s = "PRO-" ++ g1 ++ "-" ++ g2 ++ "-" ++ g3 ++ "-" ++ g4 ∧
    (g1.length = n ∧ g1.toList.all isUpperAlnum = true) ∧
    (g2.length = n ∧ g2.toList.all isUpperAlnum = true) ∧
    (g3.length = n ∧ g3.toList.all isUpperAlnum = true) ∧
    (g4.length = n ∧ g4.toList.all isUpperAlnum = true)

/-- Any string of the PRO key format with groups of width n has length
7 + 4 * n. -/
theorem keyFormat_length {n : Nat} {s : String} (h : keyFormat n s) :
    s.length = 7 + 4 * n := by
  obtain ⟨g1, g2, g3, g4, hs, h1, h2, h3, h4⟩ := h
  subst hs
  simp only [String.length_append, h1.1, h2.1, h3.1, h4.1]
  have hp : ("PRO-" : String).length = 4 := rfl
  have hh : ("-" : String).length = 1 := rfl
  rw [hp, hh]
  ring

/-- The capture-response stub of the spec scenario:
`{status: "COMPLETED", purchase_units: [{payments: {captures: [{id: "TXN1"}]}}]}`. -/
def stubCapture : CaptureResp :=
  ⟨some "COMPLETED", none, [⟨some ⟨[⟨some "TXN1"⟩]⟩⟩]⟩

/-- A fixed random source whose base-36 renderings all read
"0.abcde12345", giving the PRO key group "ABCDE". -/
def randStub : Nat → String := fun _ => "0.abcde12345"

/-- A COMPLETED capture response whose purchase_units array is empty, so
the capture-id dereference throws. -/
def envNoUnits : Env :=
  ⟨true, [], .ok "LID1", true, true, ⟨some "COMPLETED", none, []⟩, true, true, true,
   randStub, 2025, "2025-01-01T00:00:00.000Z"⟩

/-- Claim C1 fails as stated: a capture response with status COMPLETED
whose purchase_units array is empty makes the primary api.js handler
throw at the transaction-id dereference, so the endpoint answers 500,
not 200 with licenseKey and transactionId. -/
theorem c1_counterexample :
    (captureOrderApi ⟨some "O1", some "example.com", some "a@b.com"⟩ envNoUnits).1.status
      = 500 := rfl

/-- Claim C1 (amended): whenever the capture response has status
COMPLETED and the nested capture-id dereference yields an id, both the
primary api.js handler and the app.js handler answer 200 with a body
carrying the generated licenseKey and that transactionId — for every
insert outcome and every email-provider configuration and behaviour. -/
theorem c1_capture_completed_200 (o d em txn : String) (e : Env)
    (ho : o ≠ "") (hd : d ≠ "") (he : em ≠ "")
    (hdb : e.dbConnected = true) (hcr : e.credsPresent = true)
    (htk : e.tokenFetchOk = true)
    (hst : e.capture.status = some "COMPLETED")
    (hx : extractTxnId e.capture = .ok (some txn)) :
    (captureOrderApi ⟨some o, some d, some em⟩ e).1 =
      ⟨200, [("licenseKey", .str (genKeyApi e.rand)), ("transactionId", .str txn)]⟩ ∧
    (captureOrderApp ⟨some o, some d, some em⟩ e).1 =
      ⟨200, [("licenseKey", .str (genKeyApp d e.rand e.year)), ("transactionId", .str txn)]⟩ := by
  constructor <;>
    simp [captureOrderApi, captureOrderApp, ho, hd, he, hdb, hcr, htk, hst, hx]

/-- Witness for C1 at the spec scenario stub, with a failing store
write and a failing customer send. -/
theorem c1_witness :
    (captureOrderApi ⟨some "O1", some "example.com", some "a@b.com"⟩
        ⟨true, [], .error "boom", true, true, stubCapture, true, false, true,
         randStub, 2025, "T0"⟩).1 =
      ⟨200, [("licenseKey", .str (genKeyApi randStub)), ("transactionId", .str "TXN1")]⟩ ∧
    (captureOrderApp ⟨some "O1", some "example.com", some "a@b.com"⟩
        ⟨true, [], .error "boom", true, true, stubCapture, true, false, true,
         randStub, 2025, "T0"⟩).1 =
      ⟨200, [("licenseKey", .str (genKeyApp "example.com" randStub 2025)),
             ("transactionId", .str "TXN1")]⟩ :=
  c1_capture_completed_200 "O1" "example.com" "a@b.com" "TXN1"
    ⟨true, [], .error "boom", true, true, stubCapture, true, false, true,
     randStub, 2025, "T0"⟩
    (by decide) (by decide) (by decide) rfl rfl rfl rfl rfl

/-- Claim C2 fails as stated: with a failing customer send, the single
try block of the primary handler jumps to its catch, so only the
customer send is attempted and the admin send is skipped — even though
the response is still 200. -/
theorem c2_counterexample :
    (captureOrderApi ⟨some "O1", some "example.com", some "a@b.com"⟩
        ⟨true, [], .ok "LID1", true, true, stubCapture, true, false, true,
         randStub, 2025, "T0"⟩).2.emailAttempts = [EmailKind.customer] ∧
    (captureOrderApi ⟨some "O1", some "example.com", some "a@b.com"⟩
        ⟨true, [], .ok "LID1", true, true, stubCapture, true, false, true,
         randStub, 2025, "T0"⟩).1.status = 200 :=
  ⟨rfl, rfl⟩

/-- Claim C2 (amended): for a COMPLETED capture with the id path present
and the email provider configured, the customer send is always attempted
but the admin send is attempted exactly when the customer send succeeds,
because both sends sit in one try block; a failure of either send is
caught and the response is 200 regardless of both outcomes, in api.js
and app.js alike. -/
theorem c2_email_block (o d em txn : String) (e : Env)
    (ho : o ≠ "") (hd : d ≠ "") (he : em ≠ "")
    (hdb : e.dbConnected = true) (hcr : e.credsPresent = true)
    (htk : e.tokenFetchOk = true)
    (hst : e.capture.status = some "COMPLETED")
    (hx : extractTxnId e.capture = .ok (some txn))
    (hrs : e.resendConfigured = true) :
    (captureOrderApi ⟨some o, some d, some em⟩ e).2.emailAttempts =
      (if e.customerEmailOk then [EmailKind.customer, EmailKind.admin]
       else [EmailKind.customer]) ∧
    (captureOrderApi ⟨some o, some d, some em⟩ e).1.status = 200 ∧
    (captureOrderApp ⟨some o, some d, some em⟩ e).2.emailAttempts =
      (if e.customerEmailOk then [EmailKind.customer, EmailKind.admin]
       else [EmailKind.customer]) ∧
    (captureOrderApp ⟨some o, some d, some em⟩ e).1.status = 200 := by
  refine ⟨?_, ?_, ?_, ?_⟩ <;>
    simp [captureOrderApi, captureOrderApp, captureEmails, ho, hd, he, hdb, hcr, htk,
          hst, hx, hrs]

/-- Witness for C2 with a succeeding customer send and a failing admin
send: both sends attempted, response 200. -/
theorem c2_witness :
    (captureOrderApi ⟨some "O1", some "example.com", some "a@b.com"⟩
        ⟨true, [], .ok "LID1", true, true, stubCapture, true, true, false,
         randStub, 2025, "T0"⟩).2.emailAttempts =
      (if true then [EmailKind.customer, EmailKind.admin] else [EmailKind.customer]) ∧
    (captureOrderApi ⟨some "O1", some "example.com", some "a@b.com"⟩
        ⟨true, [], .ok "LID1", true, true, stubCapture, true, true, false,
         randStub, 2025, "T0"⟩).1.status = 200 ∧
    (captureOrderApp ⟨some "O1", some "example.com", some "a@b.com"⟩
        ⟨true, [], .ok "LID1", true, true, stubCapture, true, true, false,
         randStub, 2025, "T0"⟩).2.emailAttempts =
      (if true then [EmailKind.customer, EmailKind.admin] else [EmailKind.customer]) ∧
    (captureOrderApp ⟨some "O1", some "example.com", some "a@b.com"⟩
        ⟨true, [], .ok "LID1", true, true, stubCapture, true, true, false,
         randStub, 2025, "T0"⟩).1.status = 200 :=
  c2_email_block "O1" "example.com" "a@b.com" "TXN1"
    ⟨true, [], .ok "LID1", true, true, stubCapture, true, true, false,
     randStub, 2025, "T0"⟩
    (by decide) (by decide) (by decide) rfl rfl rfl rfl rfl rfl

/-- Claim C3: a capture whose status is not COMPLETED yields 400 with the
raw provider response attached as details, no insert attempt and no email
attempt, in both the primary api.js handler and the app.js handler. -/
theorem c3_not_completed (o d em : String) (e : Env)
    (ho : o ≠ "") (hd : d ≠ "") (he : em ≠ "")
    (hdb : e.dbConnected = true) (hcr : e.credsPresent = true)
    (htk : e.tokenFetchOk = true)
    (hst : e.capture.status ≠ some "COMPLETED") :
    captureOrderApi ⟨some o, some d, some em⟩ e =
      (⟨400, [("error", .str "Payment not completed."),
              ("details", captureRespJson e.capture)]⟩, ⟨1, 1, [], [], []⟩) ∧
    captureOrderApp ⟨some o, some d, some em⟩ e =
      (⟨400, [("error", .str "Payment not completed."),
              ("details", captureRespJson e.capture)]⟩, ⟨1, 1, [], [], []⟩) := by
  constructor <;>
    simp [captureOrderApi, captureOrderApp, Trace.empty, ho, hd, he, hdb, hcr, htk, hst]

/-- Witness for C3: a DECLINED capture answers 400 with the raw details,
and nothing is inserted or emailed. -/
theorem c3_witness :
    captureOrderApi ⟨some "O1", some "example.com", some "a@b.com"⟩
        ⟨true, [], .ok "LID1", true, true, ⟨some "DECLINED", none, []⟩, true, true, true,
         randStub, 2025, "T0"⟩ =
      (⟨400, [("error", .str "Payment not completed."),
              ("details", captureRespJson ⟨some "DECLINED", none, []⟩)]⟩,
       ⟨1, 1, [], [], []⟩) ∧
    captureOrderApp ⟨some "O1", some "example.com", some "a@b.com"⟩
        ⟨true, [], .ok "LID1", true, true, ⟨some "DECLINED", none, []⟩, true, true, true,
         randStub, 2025, "T0"⟩ =
      (⟨400, [("error", .str "Payment not completed."),
              ("details", captureRespJson ⟨some "DECLINED", none, []⟩)]⟩,
       ⟨1, 1, [], [], []⟩) :=
  c3_not_completed "O1" "example.com" "a@b.com"
    ⟨true, [], .ok "LID1", true, true, ⟨some "DECLINED", none, []⟩, true, true, true,
     randStub, 2025, "T0"⟩
    (by decide) (by decide) (by decide) rfl rfl rfl (by decide)

/-- Claim C4 fails as stated: a /capture-order request with all three
fields absent still causes the second (server.js) variant to issue the
token and capture network calls — that handler has no validation, so it
does not fail fast with 400 before the network. -/
theorem c4_counterexample :
    (captureOrderSrv ⟨none, none, none⟩ envNoUnits).2.tokenCalls = 1 ∧
    (captureOrderSrv ⟨none, none, none⟩ envNoUnits).2.captureCalls = 1 :=
  ⟨rfl, rfl⟩

/-- Claim C4 (amended): the primary api.js handler and the app.js
handler answer 400 before any network call when orderID, domain or email
is absent, leaving every external system untouched; the second
(server.js) variant performs no such validation and always issues the
token and capture calls. -/
theorem c4_fail_fast (req : CaptureReq) (e : Env)
    (hdb : e.dbConnected = true)
    (h : req.orderID = none ∨ req.domain = none ∨ req.email = none) :
    captureOrderApi req e =
      (⟨400, [("error", .str "Missing required fields: orderID, domain, and email.")]⟩,
       ⟨0, 0, [], [], []⟩) ∧
    captureOrderApp req e =
      (⟨400, [("error", .str "Missing required fields: orderID, domain, and email.")]⟩,
       ⟨0, 0, [], [], []⟩) ∧
    (captureOrderSrv req e).2.tokenCalls = 1 ∧
    (captureOrderSrv req e).2.captureCalls = 1 := by
  obtain ⟨ro, rd, re⟩ := req
  refine ⟨?_, ?_, ?_, ?_⟩
  · cases ro <;> cases rd <;> cases re <;>
      simp_all [captureOrderApi, Trace.empty]
  · cases ro <;> cases rd <;> cases re <;>
      simp_all [captureOrderApp, Trace.empty]
  · unfold captureOrderSrv
    split
    · cases rd <;> simp [Trace.empty, createLicense]
    · rfl
  · unfold captureOrderSrv
    split
    · cases rd <;> simp [Trace.empty, createLicense]
    · rfl

/-- Witness for C4 with an absent orderID. -/
theorem c4_witness :
    captureOrderApi ⟨none, some "example.com", some "a@b.com"⟩ envNoUnits =
      (⟨400, [("error", .str "Missing required fields: orderID, domain, and email.")]⟩,
       ⟨0, 0, [], [], []⟩) ∧
    captureOrderApp ⟨none, some "example.com", some "a@b.com"⟩ envNoUnits =
      (⟨400, [("error", .str "Missing required fields: orderID, domain, and email.")]⟩,
       ⟨0, 0, [], [], []⟩) ∧
    (captureOrderSrv ⟨none, some "example.com", some "a@b.com"⟩ envNoUnits).2.tokenCalls = 1 ∧
    (captureOrderSrv ⟨none, some "example.com", some "a@b.com"⟩ envNoUnits).2.captureCalls = 1 :=
  c4_fail_fast ⟨none, some "example.com", some "a@b.com"⟩ envNoUnits rfl (Or.inl rfl)

/-- The spec scenario environment for claim C5: database connected, the
stub capture response, a succeeding store write, and the fixed random
source. -/
def envScenario (st : List StoredLicense) (docId : String) (rc ce ae : Bool)
    (now : String) : Env :=
  ⟨true, st, .ok docId, true, true, stubCapture, rc, ce, ae, randStub, 2025, now⟩

/-- Claim C5 fails as stated: in the spec scenario the primary api.js
handler does answer 200 with transactionId TXN1, but the generated key
consists of groups of five characters — slice(2, 7) takes five — so it
does not match the claimed four-groups-of-four format. -/
theorem c5_counterexample :
    (captureOrderApi ⟨some "O1", some "example.com", some "a@b.com"⟩
        (envScenario [] "LID1" true true true "T0")).1 =
      ⟨200, [("licenseKey", .str "PRO-ABCDE-ABCDE-ABCDE-ABCDE"),
             ("transactionId", .str "TXN1")]⟩ ∧
    ¬ keyFormat 4 "PRO-ABCDE-ABCDE-ABCDE-ABCDE" := by
  refine ⟨rfl, fun h => ?_⟩
  have hl := keyFormat_length h
  have : ("PRO-ABCDE-ABCDE-ABCDE-ABCDE" : String).length = 27 := rfl
  rw [this] at hl
  omega

/-- Claim C5 (amended): in the spec scenario — stub provider response
with capture id TXN1, succeeding store write — the primary api.js handler
answers 200 with transactionId TXN1 and a licenseKey that is "PRO-"
followed by four hyphen-separated groups of five uppercase alphanumeric
characters (one group per random draw), and exactly one License record is
persisted, carrying the request domain and transactionId TXN1. -/
theorem c5_scenario (st : List StoredLicense) (docId : String) (rc ce ae : Bool)
    (now : String) :
    (captureOrderApi ⟨some "O1", some "example.com", some "a@b.com"⟩
        (envScenario st docId rc ce ae now)).1 =
      ⟨200, [("licenseKey", .str "PRO-ABCDE-ABCDE-ABCDE-ABCDE"),
             ("transactionId", .str "TXN1")]⟩ ∧
    keyFormat 5 "PRO-ABCDE-ABCDE-ABCDE-ABCDE" ∧
    (captureOrderApi ⟨some "O1", some "example.com", some "a@b.com"⟩
        (envScenario st docId rc ce ae now)).2.persisted =
      [⟨⟨some (.str "PRO-ABCDE-ABCDE-ABCDE-ABCDE"), some (.str "example.com"),
         some (.str "a@b.com"), some (.num 49), some (.str "TXN1")⟩, now⟩] := by
  refine ⟨rfl, ⟨"ABCDE", "ABCDE", "ABCDE", "ABCDE", rfl, ?_, ?_, ?_, ?_⟩, rfl⟩ <;>
    exact ⟨rfl, rfl⟩

/-- A Firestore string-equality filter that accepts a field value forces
that value to be exactly that string. -/
theorem fieldEqStr_eq : ∀ {v : Option JVal} {s : String},
    fieldEqStr v s = true → v = some (.str s)
  | some (.str t), s, h => by
      simp only [fieldEqStr, beq_iff_eq] at h
      subst h
      rfl
  | none, _, h => by simp [fieldEqStr] at h
  | some (.num n), _, h => by simp [fieldEqStr] at h
  | some (.bool b), _, h => by simp [fieldEqStr] at h
  | some .nul, _, h => by simp [fieldEqStr] at h
  | some (.obj f), _, h => by simp [fieldEqStr] at h
  | some (.arr a), _, h => by simp [fieldEqStr] at h

/-- Claim C6: when /verify finds a matching record, the body is exactly
license, domain and verified true — so it never carries email, amount or
transactionId — and when no record matches, the answer is 404 with
verified false (api.js) or with verified absent (app.js). -/
theorem c6_verify (k d : String) (e : Env)
    (hk : k ≠ "") (hd : d ≠ "") (hdb : e.dbConnected = true) :
    (∀ r, e.store.find?
        (fun r => fieldEqStr r.data.license k && fieldEqStr r.data.domain d) = some r →
      verifyApi (some k) (some d) e =
        ⟨200, [("license", .str k), ("domain", .str d), ("verified", .bool true)]⟩) ∧
    (e.store.find?
        (fun r => fieldEqStr r.data.license k && fieldEqStr r.data.domain d) = none →
      verifyApi (some k) (some d) e =
        ⟨404, [("verified", .bool false),
               ("message", .str "Invalid license key or domain.")]⟩) ∧
    (∀ r l, e.store.find? (fun r => fieldEqStr r.data.domain d) = some r →
      r.data.license = some (.str l) →
      verifyApp (some d) e =
        ⟨200, [("license", .str l), ("domain", .str d), ("verified", .bool true)]⟩) ∧
    (e.store.find? (fun r => fieldEqStr r.data.domain d) = none →
      verifyApp (some d) e =
        ⟨404, [("message", .str "No license found for the specified domain.")]⟩ ∧
      "verified" ∉ (verifyApp (some d) e).body.map Prod.fst) := by
  refine ⟨?_, ?_, ?_, ?_⟩
  · intro r hr
    have hp := List.find?_some hr
    rw [Bool.and_eq_true] at hp
    have h1 := fieldEqStr_eq hp.1
    have h2 := fieldEqStr_eq hp.2
    simp [verifyApi, hdb, hk, hd, hr, optField, h1, h2]
  · intro hr
    simp [verifyApi, hdb, hk, hd, hr]
  · intro r l hr hl
    have hp := List.find?_some hr
    have h2 := fieldEqStr_eq hp
    simp [verifyApp, hdb, hd, hr, optField, hl, h2]
  · intro hr
    simp [verifyApp, hdb, hd, hr]

/-- A license record as the paid flow persists it, for the witnesses. -/
def rec1 : StoredLicense :=
  ⟨⟨some (.str "K1"), some (.str "example.com"), some (.str "a@b.com"),
    some (.num 49), some (.str "TXN1")⟩, "T0"⟩

/-- An environment whose store holds exactly rec1. -/
def envStore : Env :=
  ⟨true, [rec1], .ok "LID1", true, true, stubCapture, true, true, true,
   randStub, 2025, "T0"⟩

/-- Witness for C6: a matching key and domain pair answers 200 with
exactly license, domain and verified; a wrong key answers 404 with
verified false; the app.js variant answers 404 without a verified field
for an unknown domain. -/
theorem c6_witness :
    verifyApi (some "K1") (some "example.com") envStore =
      ⟨200, [("license", .str "K1"), ("domain", .str "example.com"),
             ("verified", .bool true)]⟩ ∧
    verifyApi (some "BAD") (some "example.com") envStore =
      ⟨404, [("verified", .bool false),
             ("message", .str "Invalid license key or domain.")]⟩ ∧
    verifyApp (some "example.com") envStore =
      ⟨200, [("license", .str "K1"), ("domain", .str "example.com"),
             ("verified", .bool true)]⟩ ∧
    (verifyApp (some "nomatch.example") envStore =
      ⟨404, [("message", .str "No license found for the specified domain.")]⟩ ∧
     "verified" ∉ (verifyApp (some "nomatch.example") envStore).body.map Prod.fst) :=
  ⟨(c6_verify "K1" "example.com" envStore (by decide) (by decide) rfl).1 rec1 rfl,
   (c6_verify "BAD" "example.com" envStore (by decide) (by decide) rfl).2.1 rfl,
   (c6_verify "K1" "example.com" envStore (by decide) (by decide) rfl).2.2.1
     rec1 "K1" rfl rfl,
   (c6_verify "K1" "nomatch.example" envStore (by decide) (by decide) rfl).2.2.2 rfl⟩

/-- Claim C7: a /license request with all four fields present, against a
connected store whose write succeeds, answers 201 with the new document
id, and the store afterwards holds a record with exactly the request
fields and the createdAt timestamp the adapter attached at insert time. -/
theorem c7_license_created (req : LicenseReq) (e : Env) (a : JVal) (docId : String)
    (hdb : e.dbConnected = true)
    (hl : jsFalsy req.license = false) (hd : jsFalsy req.domain = false)
    (he : jsFalsy req.email = false) (ha : req.amount = some a)
    (hins : e.insertOutcome = .ok docId) :
    (licensePost req e).1 =
      ⟨201, [("message", .str "License created successfully"), ("id", .str docId)]⟩ ∧
    (licensePost req e).2.persisted =
      [⟨⟨req.license, req.domain, req.email, req.amount, none⟩, e.nowIso⟩] ∧
    (⟨⟨req.license, req.domain, req.email, req.amount, none⟩, e.nowIso⟩ : StoredLicense) ∈
      e.store ++ (licensePost req e).2.persisted := by
  refine ⟨?_, ?_, ?_⟩ <;>
    simp [licensePost, createLicense, hdb, hl, hd, he, ha, hins, Trace.empty]

/-- Witness for C7 at a concrete valid request. -/
theorem c7_witness :
    (licensePost ⟨some (.str "K2"), some (.str "example.org"), some (.str "b@c.de"),
        some (.num 49)⟩ envStore).1 =
      ⟨201, [("message", .str "License created successfully"), ("id", .str "LID1")]⟩ ∧
    (licensePost ⟨some (.str "K2"), some (.str "example.org"), some (.str "b@c.de"),
        some (.num 49)⟩ envStore).2.persisted =
      [⟨⟨some (.str "K2"), some (.str "example.org"), some (.str "b@c.de"),
         some (.num 49), none⟩, "T0"⟩] ∧
    (⟨⟨some (.str "K2"), some (.str "example.org"), some (.str "b@c.de"),
       some (.num 49), none⟩, "T0"⟩ : StoredLicense) ∈
      envStore.store ++
        (licensePost ⟨some (.str "K2"), some (.str "example.org"), some (.str "b@c.de"),
            some (.num 49)⟩ envStore).2.persisted :=
  c7_license_created
    ⟨some (.str "K2"), some (.str "example.org"), some (.str "b@c.de"), some (.num 49)⟩
    envStore (.num 49) "LID1" rfl (by decide) (by decide) (by decide) rfl rfl

/-- Claim C8: a /license request with any of the four fields absent
answers 400, with no store write attempted and nothing persisted. -/
theorem c8_license_missing_field (req : LicenseReq) (e : Env)
    (hdb : e.dbConnected = true)
    (h : req.license = none ∨ req.domain = none ∨ req.email = none ∨
         req.amount = none) :
    (licensePost req e).1.status = 400 ∧
    (licensePost req e).2.insertAttempts = [] ∧
    (licensePost req e).2.persisted = [] := by
  refine ⟨?_, ?_, ?_⟩ <;>
    rcases h with h | h | h | h <;>
      simp [licensePost, hdb, h, jsFalsy, Trace.empty]

/-- Witness for C8 with the amount field omitted. -/
theorem c8_witness :
    (licensePost ⟨some (.str "K2"), some (.str "example.org"), some (.str "b@c.de"),
        none⟩ envStore).1.status = 400 ∧
    (licensePost ⟨some (.str "K2"), some (.str "example.org"), some (.str "b@c.de"),
        none⟩ envStore).2.insertAttempts = [] ∧
    (licensePost ⟨some (.str "K2"), some (.str "example.org"), some (.str "b@c.de"),
        none⟩ envStore).2.persisted = [] :=
  c8_license_missing_field
    ⟨some (.str "K2"), some (.str "example.org"), some (.str "b@c.de"), none⟩
    envStore rfl (Or.inr (Or.inr (Or.inr rfl)))

/-- A COMPLETED capture response whose captures element exists but has no
id property: the dereference yields undefined without throwing. -/
def envNoCapId : Env :=
  ⟨true, [], .ok "LID1", true, true,
   ⟨some "COMPLETED", none, [⟨some ⟨[⟨none⟩]⟩⟩]⟩, true, true, true,
   randStub, 2025, "T0"⟩

/-- Claim C9 fails as stated: when only the final id property of the
capture path is absent, the dereference yields undefined instead of
throwing, so the handler proceeds — answering 200, not 500 — and an
insert is attempted rather than nothing being persisted. -/
theorem c9_counterexample :
    (captureOrderApi ⟨some "O1", some "example.com", some "a@b.com"⟩ envNoCapId).1.status
      = 200 ∧
    (captureOrderApi ⟨some "O1", some "example.com", some "a@b.com"⟩
        envNoCapId).2.insertAttempts ≠ [] := by
  constructor
  · rfl
  · have h : (captureOrderApi ⟨some "O1", some "example.com", some "a@b.com"⟩
        envNoCapId).2.insertAttempts =
      [⟨some (.str "PRO-ABCDE-ABCDE-ABCDE-ABCDE"), some (.str "example.com"),
        some (.str "a@b.com"), some (.num 49), none⟩] := rfl
    rw [h]
    simp

/-- Claim C9 (amended): when the COMPLETED capture response lacks an
intermediate link of the capture-id path — purchase_units[0], payments or
captures[0] — the dereference throws and both the api.js and app.js
handlers answer 500 with nothing inserted and no email attempted; only
when the final id property alone is absent does the handler proceed to a
200. -/
theorem c9_malformed_completed (o d em : String) (e : Env)
    (ho : o ≠ "") (hd : d ≠ "") (he : em ≠ "")
    (hdb : e.dbConnected = true) (hcr : e.credsPresent = true)
    (htk : e.tokenFetchOk = true)
    (hst : e.capture.status = some "COMPLETED")
    (hx : extractTxnId e.capture = .error ()) :
    captureOrderApi ⟨some o, some d, some em⟩ e =
      (⟨500, [("error", .str "Failed to capture order.")]⟩, ⟨1, 1, [], [], []⟩) ∧
    captureOrderApp ⟨some o, some d, some em⟩ e =
      (⟨500, [("error", .str "Failed to capture order.")]⟩, ⟨1, 1, [], [], []⟩) := by
  constructor <;>
    simp [captureOrderApi, captureOrderApp, Trace.empty, ho, hd, he, hdb, hcr, htk,
          hst, hx]

/-- Witness for C9 at the empty purchase_units response. -/
theorem c9_witness :
    captureOrderApi ⟨some "O1", some "example.com", some "a@b.com"⟩ envNoUnits =
      (⟨500, [("error", .str "Failed to capture order.")]⟩, ⟨1, 1, [], [], []⟩) ∧
    captureOrderApp ⟨some "O1", some "example.com", some "a@b.com"⟩ envNoUnits =
      (⟨500, [("error", .str "Failed to capture order.")]⟩, ⟨1, 1, [], [], []⟩) :=
  c9_malformed_completed "O1" "example.com" "a@b.com" envNoUnits
    (by decide) (by decide) (by decide) rfl rfl rfl rfl rfl

/-- Claim C10: /license treats amount as present whenever it is not
undefined — 0 and null pass validation and are persisted as given —
while license, domain and email are treated as missing whenever falsy,
so an empty string in any of those three is rejected with 400 and no
write. -/
theorem c10_validation (req : LicenseReq) (e : Env) (hdb : e.dbConnected = true) :
    (∀ docId, jsFalsy req.license = false → jsFalsy req.domain = false →
      jsFalsy req.email = false →
      (req.amount = some (.num 0) ∨ req.amount = some .nul) →
      e.insertOutcome = .ok docId →
      (licensePost req e).1.status = 201 ∧
      (licensePost req e).2.persisted =
        [⟨⟨req.license, req.domain, req.email, req.amount, none⟩, e.nowIso⟩]) ∧
    (req.license = some (.str "") ∨ req.domain = some (.str "") ∨
       req.email = some (.str "") →
      (licensePost req e).1.status = 400 ∧
      (licensePost req e).2.insertAttempts = []) := by
  constructor
  · intro docId h1 h2 h3 ha hins
    rcases ha with ha | ha <;>
      exact ⟨by simp [licensePost, createLicense, hdb, h1, h2, h3, ha, hins, Trace.empty],
             by simp [licensePost, createLicense, hdb, h1, h2, h3, ha, hins, Trace.empty]⟩
  · intro h
    rcases h with h | h | h <;>
      exact ⟨by simp [licensePost, hdb, h, jsFalsy, Trace.empty],
             by simp [licensePost, hdb, h, jsFalsy, Trace.empty]⟩

/-- Witness for C10: amount 0 is accepted and persisted as 0, an empty
license string is rejected with 400 and no write. -/
theorem c10_witness :
    ((licensePost ⟨some (.str "K2"), some (.str "example.org"), some (.str "b@c.de"),
        some (.num 0)⟩ envStore).1.status = 201 ∧
     (licensePost ⟨some (.str "K2"), some (.str "example.org"), some (.str "b@c.de"),
        some (.num 0)⟩ envStore).2.persisted =
       [⟨⟨some (.str "K2"), some (.str "example.org"), some (.str "b@c.de"),
          some (.num 0), none⟩, "T0"⟩]) ∧
    ((licensePost ⟨some (.str ""), some (.str "example.org"), some (.str "b@c.de"),
        some (.num 49)⟩ envStore).1.status = 400 ∧
     (licensePost ⟨some (.str ""), some (.str "example.org"), some (.str "b@c.de"),
        some (.num 49)⟩ envStore).2.insertAttempts = []) :=
  ⟨(c10_validation
      ⟨some (.str "K2"), some (.str "example.org"), some (.str "b@c.de"), some (.num 0)⟩
      envStore rfl).1 "LID1" (by decide) (by decide) (by decide) (Or.inl rfl) rfl,
   (c10_validation
      ⟨some (.str ""), some (.str "example.org"), some (.str "b@c.de"), some (.num 49)⟩
      envStore rfl).2 (Or.inl rfl)⟩

end Wacp
